import Mathlib

/-
Verification development for the camera-viewer repository: an RTSP-to-WebRTC
relay. The definitions below are a shallow embedding of the Go sources
(src/stream/rtsp.go, src/stream/webrtc.go, src/main.go); theorems settle the
frozen claims about codec selection, packet relay, and the signaling handlers.
-/

namespace CameraViewer

/-- Shallow embedding of an RTP packet (github.com/pion/rtp Packet): sequence
number, timestamp, payload type and payload bytes. Bytes are Nats. -/
structure RTPPacket where
  sequenceNumber : Nat
  timestamp : Nat
  payloadType : Nat
  payload : List Nat
deriving DecidableEq, Repr

/-- Embedding of Packet.Marshal (used at webrtc.go:130): serialises the packet
to wire bytes. On the structured packets of this model it always succeeds; the
Except shape mirrors the fallible signature checked in WriteRTPPacket. -/
def RTPPacket.marshal (p : RTPPacket) : Except String (List Nat) :=
  Except.ok ([p.payloadType % 256, p.sequenceNumber / 256 % 256, p.sequenceNumber % 256,
    p.timestamp / 16777216 % 256, p.timestamp / 65536 % 256,
    p.timestamp / 256 % 256, p.timestamp % 256] ++ p.payload)

/-- Embedding of a gortsplib media format as advertised in a session
description: the H264 and H265 format types that rtsp.go type-asserts against
(rtsp.go:84, rtsp.go:111), and every other format (other video, audio, ...). -/
inductive MediaFormat where
  | h264
  | h265
  | other (name : String)
deriving DecidableEq, Repr

/-- Embedding of a gortsplib media track: its ordered list of formats. -/
structure Media where
  formats : List MediaFormat
deriving DecidableEq, Repr

/-- Embedding of the session description returned by client.Describe
(rtsp.go:57): the ordered list of media tracks. -/
structure SessionDescription where
  medias : List Media
deriving DecidableEq, Repr

/-- Identity of a packet-handler callback registered via SetPacketHandler.
Delivery of a packet to a handler is observed as a (Handler, RTPPacket) pair. -/
structure Handler where
  id : Nat
deriving DecidableEq, Repr

/-- Embedding of the RTSPStream struct (rtsp.go:13-18). The gortsplib client
internals that the claims depend on are made explicit: setupMedias records the
indices of medias for which client.Setup and client.OnPacketRTP were issued
(rtsp.go:88, rtsp.go:99), and playing records a successful client.Play
(rtsp.go:147). -/
structure RTSPStream where
  URL : String
  onPacketHandler : Option Handler := none
  detectedCodec : String := ""
  setupMedias : List Nat := []
  playing : Bool := false
deriving DecidableEq, Repr

/-- Embedding of NewRTSPStream (rtsp.go:24-29): only the URL is set; all other
fields keep their Go zero values. -/
def NewRTSPStream (rtspURL : String) : RTSPStream :=
  { URL := rtspURL }

/-- Embedding of the inner loop of Connect over a media's formats
(rtsp.go:73-136): each format is type-asserted against H264 first and H265
second; the first format matching either is taken (with its codec string) and
the loop breaks; other formats are skipped. -/
def findVideoFormat : List MediaFormat → Option String
  | [] => none
  | MediaFormat.h264 :: _ => some "H264"
  | MediaFormat.h265 :: _ => some "H265"
  | MediaFormat.other _ :: rest => findVideoFormat rest

/-- Embedding of the outer loop of Connect over session.Medias (rtsp.go:69-137),
threading the detectedCodec and setupCount mutations. The break at rtsp.go:107
and rtsp.go:134 exits only the inner format loop, so the outer loop visits every
media: the result is (indices of medias set up, final detectedCodec, final
setupCount), with index numbering starting at the given i. -/
def connectLoop : List Media → Nat → String → Nat → List Nat × String × Nat
  | [], _, codec, count => ([], codec, count)
  | m :: rest, i, codec, count =>
    match findVideoFormat m.formats with
    | some c =>
      let r := connectLoop rest (i + 1) c (count + 1)
      (i :: r.1, r.2)
    | none => connectLoop rest (i + 1) codec count

/-- Embedding of Connect (rtsp.go:37-157) from the point where the session
description is available: the URL-parse, Start and Describe steps are modelled
as having succeeded and the description is passed in. Runs the media loop; if
no media was set up, fails with the no-supported-codec error (rtsp.go:139-141);
otherwise Play succeeds and the stream state records the set-up medias and the
final detected codec. -/
def Connect (s : RTSPStream) (session : SessionDescription) : Except String RTSPStream :=
  let r := connectLoop session.medias 0 s.detectedCodec 0
  if r.2.2 = 0 then
    Except.error "no H264 or H265 video format found in stream - check camera codec settings"
  else
    Except.ok { s with detectedCodec := r.2.1, setupMedias := r.1, playing := true }

/-- Embedding of SetPacketHandler (rtsp.go:161-163): stores the handler in the
onPacketHandler field, replacing any previous one. -/
def SetPacketHandler (s : RTSPStream) (handler : Handler) : RTSPStream :=
  { s with onPacketHandler := some handler }

/-- Embedding of GetCodec (rtsp.go:167-169): returns the detectedCodec field. -/
def GetCodec (s : RTSPStream) : String :=
  s.detectedCodec

/-- Embedding of the per-media OnPacketRTP closure registered at rtsp.go:99-104
and rtsp.go:126-131: when a packet arrives it reads s.onPacketHandler at call
time (the closure captures the stream pointer, not the handler value) and
invokes it if set. The returned list is the delivery observed by the handler. -/
def mediaCallback (s : RTSPStream) (pkt : RTPPacket) : List (Handler × RTPPacket) :=
  match s.onPacketHandler with
  | some h => [(h, pkt)]
  | none => []

/-- Events observable by an RTSPStream after Connect returns: a call to
SetPacketHandler, or an RTP packet arriving on a given media index. -/
inductive StreamEvent where
  | setHandler (h : Handler)
  | rtpPacket (mediaIdx : Nat) (pkt : RTPPacket)
deriving DecidableEq, Repr

/-- Run of an RTSPStream over a sequence of events, collecting every delivery
made to a registered handler. A packet is dispatched to the mediaCallback
closure only if the client is playing and the packet's media was set up during
Connect (gortsplib fires OnPacketRTP callbacks only for set-up medias of a
playing session); the closure then consults the current onPacketHandler. -/
def runStream (s : RTSPStream) : List StreamEvent → List (Handler × RTPPacket)
  | [] => []
  | StreamEvent.setHandler h :: rest => runStream (SetPacketHandler s h) rest
  | StreamEvent.rtpPacket i pkt :: rest =>
    (if s.playing = true ∧ i ∈ s.setupMedias then mediaCallback s pkt else [])
      ++ runStream s rest

/-- Embedding of pion's SDP type tags (webrtc.SDPTypeOffer / SDPTypeAnswer) as
used at webrtc.go:88 and in CreateOffer. -/
inductive SDPType where
  | offer
  | answer
deriving DecidableEq, Repr

/-- Embedding of webrtc.SessionDescription (fields Type and SDP); the Type
field is rendered sdpType since Type is reserved in Lean. -/
structure SessionDesc where
  sdpType : SDPType
  SDP : String
deriving DecidableEq, Repr

/-- Embedding of webrtc.TrackLocalStaticRTP as created at webrtc.go:46-50: the
codec mime type and the id and stream-id strings passed to the constructor. -/
structure Track where
  mimeType : String
  trackID : String
  streamID : String
deriving DecidableEq, Repr

/-- Model of the pion webrtc.PeerConnection state relevant to the claims:
whether it was closed, the attached local tracks in attachment order, and the
local and remote session descriptions. -/
structure PeerConnection where
  closed : Bool := false
  tracks : List Track := []
  localDescription : Option SessionDesc := none
  remoteDescription : Option SessionDesc := none
deriving DecidableEq, Repr

/-- Deterministic rendering of the SDP text pion generates for the current
track set; the exact text is irrelevant to the claims, only that it is a
function of the attached tracks. -/
def sdpOfTracks (ts : List Track) : String :=
  "v=0 " ++ String.intercalate " " (ts.map (fun t => "m=video " ++ t.mimeType))

/-- Model of pion PeerConnection.CreateOffer: generates a description of the
currently attached tracks. Per the WebRTC API it succeeds on an open connection
with or without tracks (an offer with no media sections is valid); it fails on
a closed connection. -/
def pcCreateOffer (pc : PeerConnection) : Except String SessionDesc :=
  if pc.closed = true then Except.error "connection closed"
  else Except.ok { sdpType := SDPType.offer, SDP := sdpOfTracks pc.tracks }

/-- Model of pion PeerConnection.SetLocalDescription: stores the description;
fails on a closed connection. -/
def pcSetLocalDescription (pc : PeerConnection) (d : SessionDesc) : Except String PeerConnection :=
  if pc.closed = true then Except.error "connection closed"
  else Except.ok { pc with localDescription := some d }

/-- Model of pion PeerConnection.SetRemoteDescription: stores the description;
fails on a closed connection, or when an answer is applied before any local
offer exists (wrong signaling state). -/
def pcSetRemoteDescription (pc : PeerConnection) (d : SessionDesc) : Except String PeerConnection :=
  if pc.closed = true then Except.error "connection closed"
  else if d.sdpType = SDPType.answer ∧ pc.localDescription = none then
    Except.error "remote description applied in wrong signaling state"
  else Except.ok { pc with remoteDescription := some d }

/-- Model of pion PeerConnection.AddTrack: appends the track to the connection;
fails on a closed connection. -/
def pcAddTrack (pc : PeerConnection) (t : Track) : Except String PeerConnection :=
  if pc.closed = true then Except.error "connection closed"
  else Except.ok { pc with tracks := pc.tracks ++ [t] }

/-- Model of pion webrtc.NewTrackLocalStaticRTP (webrtc.go:46-50): constructs
the track value from the codec capability and the id strings. -/
def NewTrackLocalStaticRTP (mimeType trackID streamID : String) : Except String Track :=
  Except.ok { mimeType := mimeType, trackID := trackID, streamID := streamID }

/-- Embedding of the WebRTCPeer struct (webrtc.go:11-14), with trackWrites
recording the byte strings written to the video track so far (the observable
effect of successful writes). -/
structure WebRTCPeer where
  peerConnection : PeerConnection := {}
  videoTrack : Option Track := none
  trackWrites : List (List Nat) := []
deriving DecidableEq, Repr

/-- Embedding of NewWebRTCPeer (webrtc.go:16-38) on its success path: a fresh
open peer connection, no video track yet. -/
def NewWebRTCPeer : WebRTCPeer :=
  {}

/-- Embedding of CreateVideoTrack (webrtc.go:42-65): builds a new track with
the given mime type and the literal id "video" and stream-id "camera-stream"
(the trackID parameter is ignored by the source, which passes the literals),
stores it in the videoTrack field, and attaches it to the peer connection.
There is no check whether a video track already exists. -/
def CreateVideoTrack (p : WebRTCPeer) (trackID codecMimeType : String) : Except String WebRTCPeer :=
  match NewTrackLocalStaticRTP codecMimeType "video" "camera-stream" with
  | Except.error e => Except.error ("failed to create video track: " ++ e)
  | Except.ok videoTrack =>
    let p2 := { p with videoTrack := some videoTrack }
    match pcAddTrack p2.peerConnection videoTrack with
    | Except.error e => Except.error ("failed to add video track to peer connection: " ++ e)
    | Except.ok pc => Except.ok { p2 with peerConnection := pc }

/-- Embedding of CreateOffer (webrtc.go:68-82): creates an offer from the peer
connection, sets it as the local description, and returns its SDP text. There
is no check whether a video track exists. -/
def CreateOffer (p : WebRTCPeer) : Except String (String × WebRTCPeer) :=
  match pcCreateOffer p.peerConnection with
  | Except.error e => Except.error ("failed to create offer: " ++ e)
  | Except.ok offer =>
    match pcSetLocalDescription p.peerConnection offer with
    | Except.error e => Except.error ("failed to set local description: " ++ e)
    | Except.ok pc => Except.ok (offer.SDP, { p with peerConnection := pc })

/-- Embedding of SetAnswer (webrtc.go:85-100): wraps the given SDP text in a
description whose type is always answer (webrtc.go:88) and applies it as the
remote description. -/
def SetAnswer (p : WebRTCPeer) (answerSDP : String) : Except String WebRTCPeer :=
  let answer : SessionDesc := { sdpType := SDPType.answer, SDP := answerSDP }
  match pcSetRemoteDescription p.peerConnection answer with
  | Except.error e => Except.error ("failed to set remote description: " ++ e)
  | Except.ok pc => Except.ok { p with peerConnection := pc }

/-- Model of TrackLocalStaticRTP.Write as invoked at webrtc.go:136: appends the
bytes to the track's write log; rejects the write when the peer connection has
been closed. -/
def trackWrite (p : WebRTCPeer) (data : List Nat) : Except String WebRTCPeer :=
  if p.peerConnection.closed = true then Except.error "io: read or write on closed pipe"
  else Except.ok { p with trackWrites := p.trackWrites ++ [data] }

/-- Embedding of WriteRTPPacket (webrtc.go:124-141): fails with the no-track
error when videoTrack is nil, otherwise marshals the packet and writes the
bytes to the video track. -/
def WriteRTPPacket (p : WebRTCPeer) (packet : RTPPacket) : Except String WebRTCPeer :=
  if p.videoTrack = none then Except.error "video track not created"
  else
    match packet.marshal with
    | Except.error e => Except.error ("failed to marshal RTP packet: " ++ e)
    | Except.ok data =>
      match trackWrite p data with
      | Except.error e => Except.error ("failed to write packet to video track: " ++ e)
      | Except.ok p2 => Except.ok p2

/-- Embedding of the packet-handler closure installed in main.go:77-83: it
attempts WriteRTPPacket; on failure the error is logged and swallowed (the
closure has no error return), leaving the peer state as it was. The Bool
records whether the write attempt succeeded. -/
def relayStep (p : WebRTCPeer) (packet : RTPPacket) : WebRTCPeer × Bool :=
  match WriteRTPPacket p packet with
  | Except.ok p2 => (p2, true)
  | Except.error _ => (p, false)

/-- Embedding of the steady-state relay: the RTSP read path invokes the
main.go packet handler once per arriving packet, in order, regardless of the
outcome of earlier write attempts (the handler cannot return an error into the
read loop). Returns the final peer state and, per packet, the delivered packet
paired with its write outcome. -/
def relayRun (p : WebRTCPeer) : List RTPPacket → WebRTCPeer × List (RTPPacket × Bool)
  | [] => (p, [])
  | pkt :: rest =>
    let step := relayStep p pkt
    let r := relayRun step.1 rest
    (r.1, (pkt, step.2) :: r.2)

/-- Embedding of the JSON body of POST api-answer as decoded at main.go:166-169
(fields Type and SDP, rendered lowercase since Type is reserved in Lean). -/
structure AnswerBody where
  type : String
  sdp : String
deriving DecidableEq, Repr

/-- HTTP response observed by the claims: status code and body text. -/
structure HTTPResponse where
  status : Nat
  body : String
deriving DecidableEq, Repr

/-- Embedding of handleAnswer (main.go:158-195). The request body is given as
the result of the JSON decode at main.go:173: none models a body that is not
valid JSON for the expected shape (decode error), some gives the decoded
fields. Non-POST methods get 405; a decode error gets 400 with the peer
untouched; otherwise SetAnswer is applied to the sdp field only and its
failure maps to 500. -/
def handleAnswer (method : String) (body : Option AnswerBody) (p : WebRTCPeer) :
    HTTPResponse × WebRTCPeer :=
  if method ≠ "POST" then ({ status := 405, body := "Method not allowed" }, p)
  else
    match body with
    | none => ({ status := 400, body := "Failed to decode answer" }, p)
    | some answer =>
      match SetAnswer p answer.sdp with
      | Except.error _ => ({ status := 500, body := "Failed to set answer" }, p)
      | Except.ok p2 => ({ status := 200, body := "status success" }, p2)

/-- Specification-side helper: the indices (numbered from i) of the medias
that contain an H264 or H265 format, in declaration order. Used to state what
Connect actually sets up. -/
def matchingIndicesFrom (i : Nat) : List Media → List Nat
  | [] => []
  | m :: rest =>
    match findVideoFormat m.formats with
    | some _ => i :: matchingIndicesFrom (i + 1) rest
    | none => matchingIndicesFrom (i + 1) rest

/-- Specification-side helper: the codec strings of the matching medias, in
declaration order. -/
def matchedCodecs (medias : List Media) : List String :=
  medias.filterMap (fun m => findVideoFormat m.formats)

/-- Specification-side helper: the peer state after a successful CreateOffer,
namely the input peer with the generated offer stored as local description. -/
def offerApplied (p : WebRTCPeer) : WebRTCPeer :=
  let d : SessionDesc := { sdpType := SDPType.offer, SDP := sdpOfTracks p.peerConnection.tracks }
  let pc : PeerConnection := { p.peerConnection with localDescription := some d }
  { p with peerConnection := pc }

/-- Concrete session description with two video medias: the first advertises
H264, the second H265. -/
def camera1 : SessionDescription :=
  { medias := [{ formats := [MediaFormat.h264] }, { formats := [MediaFormat.h265] }] }

/-- Concrete session description with a single H264 media. -/
def camH264 : SessionDescription :=
  { medias := [{ formats := [MediaFormat.h264] }] }

/-- Concrete session description with an audio media only: no H264/H265. -/
def audioSession : SessionDescription :=
  { medias := [{ formats := [MediaFormat.other "audio"] }] }

/-- Concrete handler identity used in witnesses and counterexamples. -/
def h0 : Handler :=
  { id := 0 }

/-- Concrete RTP packet used in witnesses and counterexamples. -/
def pkt0 : RTPPacket :=
  { sequenceNumber := 1, timestamp := 2, payloadType := 96, payload := [7, 7] }

/-- Concrete RTSP stream state as produced by a successful Connect on camH264,
with no packet handler registered. -/
def connectedH264 : RTSPStream :=
  { URL := "rtsp://cam", onPacketHandler := none, detectedCodec := "H264",
    setupMedias := [0], playing := true }

/-- Concrete H264 video track as built by CreateVideoTrack. -/
def trackH264 : Track :=
  { mimeType := "video/H264", trackID := "video", streamID := "camera-stream" }

/-- Concrete H265 video track as built by CreateVideoTrack. -/
def trackH265 : Track :=
  { mimeType := "video/H265", trackID := "video", streamID := "camera-stream" }

/-- Concrete peer whose connection has been closed while a video track exists:
every subsequent track write fails. -/
def closedPeer : WebRTCPeer :=
  { peerConnection := { closed := true, tracks := [trackH264] }, videoTrack := some trackH264 }

/-- Characterisation of the Connect media loop: it visits every media (the
break only leaves the inner format loop), so it sets up exactly the matching
medias, leaves the detectedCodec of the last matching media (the accumulator
default if none), and counts the matches. -/
theorem connectLoop_eq (medias : List Media) (i : Nat) (codec : String) (count : Nat) :
    connectLoop medias i codec count =
      (matchingIndicesFrom i medias,
        (matchedCodecs medias).getLastD codec,
        count + (matchedCodecs medias).length) := by
  induction medias generalizing i codec count with
  | nil => simp [connectLoop, matchingIndicesFrom, matchedCodecs]
  | cons m rest ih =>
    cases hm : findVideoFormat m.formats with
    | none =>
      have hmc : matchedCodecs (m :: rest) = matchedCodecs rest := by
        simp [matchedCodecs, List.filterMap_cons, hm]
      simp [connectLoop, matchingIndicesFrom, hm, ih, hmc]
    | some c =>
      have hmc : matchedCodecs (m :: rest) = c :: matchedCodecs rest := by
        simp [matchedCodecs, List.filterMap_cons, hm]
      simp [connectLoop, matchingIndicesFrom, hm, ih, hmc]
      refine ⟨?_, by omega⟩
      rw [← List.getLastD_eq_getLast?, ← List.getLastD_eq_getLast?, List.getLastD_cons]

/-- Helper: a stream for which Connect set up no media delivers no packet to
any handler, whatever events occur (even handler registrations). -/
theorem runStream_no_setup (s : RTSPStream) (events : List StreamEvent)
    (h : s.setupMedias = []) : runStream s events = [] := by
  induction events generalizing s with
  | nil => rfl
  | cons e rest ih =>
    cases e with
    | setHandler hh =>
      exact ih (SetPacketHandler s hh) h
    | rtpPacket i pkt =>
      simp [runStream, h, ih s h]

/-- Helper: on a peer whose connection is closed, every relay step leaves the
peer unchanged and reports a failed write (the underlying track write is
rejected, or the no-track error fires first). -/
theorem relayStep_closed (p : WebRTCPeer) (pkt : RTPPacket)
    (h : p.peerConnection.closed = true) : relayStep p pkt = (p, false) := by
  cases hv : p.videoTrack with
  | none => simp [relayStep, WriteRTPPacket, hv]
  | some t => simp [relayStep, WriteRTPPacket, RTPPacket.marshal, trackWrite, hv, h]

/-- C1 counterexample: on a session advertising an H264 media followed by an
H265 media, Connect sets up BOTH medias (setupMedias = [0, 1]), not only the
first matching track, and GetCodec afterwards returns "H265", the codec of the
LAST matching track, not "H264" of the first. -/
theorem connect_not_only_first_track :
    (Connect (NewRTSPStream "rtsp://cam") camera1).map (fun s => (s.setupMedias, GetCodec s)) =
      Except.ok ([0, 1], "H265") := by
  rfl

/-- C1 (amended): for every session description with at least one H264/H265
media, Connect succeeds, sets up the first matching format of EVERY media that
has one (in declaration order), and GetCodec afterwards returns the codec of
the LAST matching media (the accumulator default if none matched). -/
theorem connect_setup_spec (s : RTSPStream) (session : SessionDescription)
    (hmatch : matchedCodecs session.medias ≠ []) :
    Connect s session = Except.ok { s with
      detectedCodec := (matchedCodecs session.medias).getLastD s.detectedCodec,
      setupMedias := matchingIndicesFrom 0 session.medias,
      playing := true } ∧
    GetCodec { s with
      detectedCodec := (matchedCodecs session.medias).getLastD s.detectedCodec,
      setupMedias := matchingIndicesFrom 0 session.medias,
      playing := true } = (matchedCodecs session.medias).getLastD s.detectedCodec := by
  have hlen : (matchedCodecs session.medias).length ≠ 0 := by
    simpa [List.length_eq_zero] using hmatch
  constructor
  · simp [Connect, connectLoop_eq, hlen]
  · rfl

/-- C1 witness: the amended statement evaluated on the concrete two-media
session camera1 from a fresh stream. -/
theorem connect_setup_spec_witness :
    Connect (NewRTSPStream "rtsp://cam") camera1 = Except.ok { NewRTSPStream "rtsp://cam" with
      detectedCodec := (matchedCodecs camera1.medias).getLastD (NewRTSPStream "rtsp://cam").detectedCodec,
      setupMedias := matchingIndicesFrom 0 camera1.medias,
      playing := true } ∧
    GetCodec { NewRTSPStream "rtsp://cam" with
      detectedCodec := (matchedCodecs camera1.medias).getLastD (NewRTSPStream "rtsp://cam").detectedCodec,
      setupMedias := matchingIndicesFrom 0 camera1.medias,
      playing := true } = (matchedCodecs camera1.medias).getLastD (NewRTSPStream "rtsp://cam").detectedCodec :=
  connect_setup_spec (NewRTSPStream "rtsp://cam") camera1 (by decide)

/-- C2: during steady-state relay, a WriteRTPPacket failure never propagates
into the RTSP read path: for every peer state and packet stream, every packet
is delivered to the handler and attempted for writing, in order; in particular
on a peer whose connection is closed every write attempt fails and yet every
packet is still delivered and attempted. -/
theorem relay_delivers_all (p : WebRTCPeer) (pkts : List RTPPacket) :
    (relayRun p pkts).2.map Prod.fst = pkts ∧
    (p.peerConnection.closed = true →
      (relayRun p pkts).2.map Prod.snd = List.replicate pkts.length false) := by
  induction pkts generalizing p with
  | nil => simp [relayRun]
  | cons pkt rest ih =>
    constructor
    · simp [relayRun, (ih (relayStep p pkt).1).1]
    · intro hc
      have hstep : relayStep p pkt = (p, false) := relayStep_closed p pkt hc
      simp [relayRun, hstep, (ih p).2 hc, List.replicate_succ]

/-- C2 witness: on the concrete closed peer, the single packet pkt0 is
delivered and attempted, and its write attempt fails. -/
theorem relay_delivers_all_witness :
    (relayRun closedPeer [pkt0]).2.map Prod.fst = [pkt0] ∧
    (relayRun closedPeer [pkt0]).2.map Prod.snd = List.replicate 1 false :=
  ⟨(relay_delivers_all closedPeer [pkt0]).1,
   (relay_delivers_all closedPeer [pkt0]).2 rfl⟩

/-- C3 counterexample: registering the packet handler only AFTER Connect
completes still delivers packets: on the stream returned by Connect for the
one-H264-media session, the run that first registers h0 and then receives pkt0
on the set-up media delivers (h0, pkt0), because the per-track closure reads
onPacketHandler at call time. -/
theorem setHandler_after_connect_cex :
    (Connect (NewRTSPStream "rtsp://cam") camH264).map
      (fun s => runStream s [StreamEvent.setHandler h0, StreamEvent.rtpPacket 0 pkt0]) =
      Except.ok [(h0, pkt0)] := by
  rfl

/-- C3 (amended): when the handler is registered only after Connect, packets
that arrived before the registration are not delivered, but a packet arriving
after the registration IS delivered to the newly registered handler; the run
then continues with the handler in place. -/
theorem setHandler_after_connect_delivers (s : RTSPStream) (h : Handler)
    (pre rest : List StreamEvent) (m : Nat) (p : RTPPacket)
    (h1 : s.onPacketHandler = none)
    (h2 : ∀ hh, StreamEvent.setHandler hh ∉ pre)
    (h3 : s.playing = true) (h4 : m ∈ s.setupMedias) :
    runStream s pre = [] ∧
    runStream s (pre ++ StreamEvent.setHandler h :: StreamEvent.rtpPacket m p :: rest) =
      (h, p) :: runStream (SetPacketHandler s h) rest := by
  induction pre with
  | nil =>
    refine ⟨rfl, ?_⟩
    simp [runStream, SetPacketHandler, mediaCallback, h3, h4]
  | cons e pre ih =>
    have h2r : ∀ hh, StreamEvent.setHandler hh ∉ pre := by
      intro hh hmem
      exact h2 hh (List.mem_cons_of_mem e hmem)
    cases e with
    | setHandler hh =>
      exact absurd (List.mem_cons_self (StreamEvent.setHandler hh) pre) (h2 hh)
    | rtpPacket i q =>
      have hcb : mediaCallback s q = [] := by
        simp [mediaCallback, h1]
      refine ⟨?_, ?_⟩
      · simp [runStream, hcb, (ih h2r).1]
      · simp [runStream, hcb, (ih h2r).2]

/-- C3 witness: the amended statement on the concrete connected stream: the
packet that arrives before registration is lost, and after registering h0 the
next packet pkt0 on media 0 is delivered to h0. -/
theorem setHandler_after_connect_delivers_witness :
    runStream connectedH264 [StreamEvent.rtpPacket 0 pkt0] = [] ∧
    runStream connectedH264 ([StreamEvent.rtpPacket 0 pkt0] ++
        StreamEvent.setHandler h0 :: StreamEvent.rtpPacket 0 pkt0 :: []) =
      (h0, pkt0) :: runStream (SetPacketHandler connectedH264 h0) [] :=
  setHandler_after_connect_delivers connectedH264 h0 [StreamEvent.rtpPacket 0 pkt0] [] 0 pkt0
    rfl (by intro hh hmem; simp at hmem) rfl (by decide)

/-- C4: on a session description with no H264/H265 track, Connect (from a
fresh, never-set-up stream) fails with the NoSupportedCodec error, and no
packet is ever delivered to any handler: whatever events occur afterwards,
including handler registrations, the delivery trace is empty because no
per-media callback was registered. -/
theorem connect_no_supported_codec (s : RTSPStream) (session : SessionDescription)
    (hnone : ∀ m ∈ session.medias, findVideoFormat m.formats = none)
    (hfresh : s.setupMedias = []) :
    Connect s session =
      Except.error "no H264 or H265 video format found in stream - check camera codec settings" ∧
    ∀ events, runStream s events = [] := by
  have hcodecs : matchedCodecs session.medias = [] := by
    simp [matchedCodecs, List.filterMap_eq_nil_iff]
    exact hnone
  constructor
  · simp [Connect, connectLoop_eq, hcodecs]
  · intro events
    exact runStream_no_setup s events hfresh

/-- C4 witness: the statement on the concrete audio-only session from a fresh
stream, with a run that registers a handler and then receives a packet. -/
theorem connect_no_supported_codec_witness :
    Connect (NewRTSPStream "rtsp://audio") audioSession =
      Except.error "no H264 or H265 video format found in stream - check camera codec settings" ∧
    runStream (NewRTSPStream "rtsp://audio")
      [StreamEvent.setHandler h0, StreamEvent.rtpPacket 0 pkt0] = [] :=
  ⟨(connect_no_supported_codec (NewRTSPStream "rtsp://audio") audioSession (by decide) rfl).1,
   (connect_no_supported_codec (NewRTSPStream "rtsp://audio") audioSession (by decide) rfl).2
     [StreamEvent.setHandler h0, StreamEvent.rtpPacket 0 pkt0]⟩

/-- C5: for every peer on which CreateVideoTrack has not been called (no video
track), WriteRTPPacket fails with the no-track error, and the main.go relay
step has no observable side effect: the peer state, including its write log
and connection state, is returned unchanged. -/
theorem write_before_track (p : WebRTCPeer) (packet : RTPPacket)
    (h : p.videoTrack = none) :
    WriteRTPPacket p packet = Except.error "video track not created" ∧
    relayStep p packet = (p, false) := by
  have hw : WriteRTPPacket p packet = Except.error "video track not created" := by
    simp [WriteRTPPacket, h]
  exact ⟨hw, by simp [relayStep, hw]⟩

/-- C5 witness: the statement on the fresh peer and the concrete packet. -/
theorem write_before_track_witness :
    WriteRTPPacket NewWebRTCPeer pkt0 = Except.error "video track not created" ∧
    relayStep NewWebRTCPeer pkt0 = (NewWebRTCPeer, false) :=
  write_before_track NewWebRTCPeer pkt0 rfl

/-- C6 counterexample: two sequential CreateVideoTrack calls on the same peer
both succeed: the second is NOT rejected, it replaces the stored video track
with the new H265 track and attaches a second track to the peer connection. -/
theorem createVideoTrack_twice_cex :
    (CreateVideoTrack NewWebRTCPeer "video" "video/H264").bind
      (fun p => CreateVideoTrack p "video" "video/H265") =
      Except.ok { peerConnection := { tracks := [trackH264, trackH265] },
                  videoTrack := some trackH265 } := by
  rfl

/-- C6 (amended): CreateVideoTrack performs no already-exists check: on any
peer whose connection is open, a call (first or repeated) succeeds, replaces
the videoTrack field with the freshly built track, and appends that track to
the peer connection's track list. -/
theorem createVideoTrack_always_replaces (p : WebRTCPeer) (trackID codecMimeType : String)
    (h : p.peerConnection.closed = false) :
    CreateVideoTrack p trackID codecMimeType = Except.ok { p with
      videoTrack := some { mimeType := codecMimeType, trackID := "video", streamID := "camera-stream" },
      peerConnection := { p.peerConnection with
        tracks := p.peerConnection.tracks ++
          [{ mimeType := codecMimeType, trackID := "video", streamID := "camera-stream" }] } } := by
  simp [CreateVideoTrack, NewTrackLocalStaticRTP, pcAddTrack, h]

/-- C6 witness: the amended statement on the peer that already holds the H264
track, called again with the H265 mime type. -/
theorem createVideoTrack_always_replaces_witness :
    CreateVideoTrack { peerConnection := { tracks := [trackH264] }, videoTrack := some trackH264 }
        "video" "video/H265" =
      Except.ok { peerConnection := { tracks := [trackH264, trackH265] },
                  videoTrack := some trackH265 } :=
  createVideoTrack_always_replaces
    { peerConnection := { tracks := [trackH264] }, videoTrack := some trackH264 }
    "video" "video/H265" rfl

/-- C7 counterexample: CreateOffer called on a fresh peer, before any video
track exists, does NOT fail: it succeeds, returning the SDP of the empty track
set and storing it as the local description. -/
theorem createOffer_without_track_cex :
    CreateOffer NewWebRTCPeer =
      Except.ok (sdpOfTracks [], offerApplied NewWebRTCPeer) := by
  rfl

/-- C7 (amended): CreateOffer performs no track-existence check: on any peer
with an open connection, with or without a video track, each call produces
exactly one offer-and-local-description pair for the current track set and
returns its SDP text, and a second sequential call succeeds again the same
way. -/
theorem createOffer_spec (p : WebRTCPeer)
    (h : p.peerConnection.closed = false) :
    CreateOffer p = Except.ok (sdpOfTracks p.peerConnection.tracks, offerApplied p) ∧
    (offerApplied p).peerConnection.localDescription =
      some { sdpType := SDPType.offer, SDP := sdpOfTracks p.peerConnection.tracks } ∧
    CreateOffer (offerApplied p) =
      Except.ok (sdpOfTracks p.peerConnection.tracks, offerApplied (offerApplied p)) := by
  refine ⟨?_, rfl, ?_⟩
  · simp [CreateOffer, pcCreateOffer, pcSetLocalDescription, offerApplied, h]
  · simp [CreateOffer, pcCreateOffer, pcSetLocalDescription, offerApplied, h]

/-- C7 witness: the amended statement on the peer that holds the H264 track
(the configuration main.go reaches before handleOffer runs). -/
theorem createOffer_spec_witness :
    CreateOffer { peerConnection := { tracks := [trackH264] }, videoTrack := some trackH264 } =
      Except.ok (sdpOfTracks [trackH264],
        offerApplied { peerConnection := { tracks := [trackH264] }, videoTrack := some trackH264 }) ∧
    (offerApplied { peerConnection := { tracks := [trackH264] }, videoTrack := some trackH264 }).peerConnection.localDescription =
      some { sdpType := SDPType.offer, SDP := sdpOfTracks [trackH264] } ∧
    CreateOffer (offerApplied { peerConnection := { tracks := [trackH264] }, videoTrack := some trackH264 }) =
      Except.ok (sdpOfTracks [trackH264],
        offerApplied (offerApplied { peerConnection := { tracks := [trackH264] }, videoTrack := some trackH264 })) :=
  createOffer_spec { peerConnection := { tracks := [trackH264] }, videoTrack := some trackH264 } rfl

/-- C8: for every POST api-answer request whose body fails the JSON decode,
handleAnswer responds with status 400 and returns the peer completely
unchanged (SetAnswer is never reached), so an unset remote description remains
unset. -/
theorem handleAnswer_malformed_400 (p : WebRTCPeer) :
    handleAnswer "POST" none p = ({ status := 400, body := "Failed to decode answer" }, p) := by
  simp [handleAnswer]

/-- C9: GetCodec called before any successful Connect (on a stream as returned
by NewRTSPStream) returns the empty string, which is outside the documented
codec set of H264, H265 and Unsupported. -/
theorem getCodec_before_connect (url : String) :
    GetCodec (NewRTSPStream url) = "" ∧ "" ∉ ["H264", "H265", "Unsupported"] := by
  exact ⟨rfl, by decide⟩

/-- C10: handleAnswer ignores the type field of the request body: two
well-formed bodies that differ only in their type value produce identical
responses and identical peer states, since SetAnswer is applied to the sdp
field alone and always wraps it as an answer. -/
theorem handleAnswer_ignores_type (p : WebRTCPeer) (ty1 ty2 sdp : String) :
    handleAnswer "POST" (some { type := ty1, sdp := sdp }) p =
      handleAnswer "POST" (some { type := ty2, sdp := sdp }) p := by
  rfl

end CameraViewer
